import Mathlib

/-!
Shallow embedding of the s3_athena repository (Python) in Lean 4.

The repository is a thin CLI over AWS S3 and Athena.  The external services
(S3, Athena, the filesystem, the JSON parser, the mimetypes table) are
modelled as explicit oracle parameters; the repository's own control flow is
translated function by function from the source files:

  * utils/helpers.py            : load_config, generate_filename, get_default_bucket
  * athena_module/athena_operations.py :
      run_athena_query, wait_for_query_to_complete, store logic
  * s3_module/s3_setup.py, s3_module/s3_operations.py :
      create_bucket, delete_bucket, delete_multiple_buckets

Python strings are modelled as Lean `String`; the Python string methods used
by the source (`str.split`, `str.lower`, `str.strip`, `str.startswith`,
`str.replace`, slicing, `str.isalnum`) are given explicit list-of-character
implementations below so that every definition is executable and
kernel-reducible.  `str.lower`/`isalnum` act on Unicode in Python; the claims
only exercise ASCII inputs, and the Lean model uses the ASCII behaviour
(`Char.toLower`, `Char.isAlphanum`).
-/

namespace S3Athena

/-- Python `str.split()` (no separator argument): split on runs of whitespace,
dropping empty pieces.  Worker on character lists; `cur` is the current word
reversed. -/
def splitWsGo : List Char → List Char → List (List Char)
  | [], cur => if cur = [] then [] else [cur.reverse]
  | c :: cs, cur =>
    if c.isWhitespace then
      if cur = [] then splitWsGo cs [] else cur.reverse :: splitWsGo cs []
    else splitWsGo cs (c :: cur)

/-- Python `s.split()` on a Lean `String`. -/
def pySplit (s : String) : List String :=
  (splitWsGo s.data []).map String.mk

/-- Python `s.split('.')`: split at every dot, keeping empty pieces. -/
def splitDotGo : List Char → List Char → List (List Char)
  | [], cur => [cur.reverse]
  | c :: cs, cur =>
    if c = '.' then cur.reverse :: splitDotGo cs []
    else splitDotGo cs (c :: cur)

/-- Python `s.split('.')` on a Lean `String`. -/
def pySplitDot (s : String) : List String :=
  (splitDotGo s.data []).map String.mk

/-- Python `s.lower()` (ASCII behaviour). -/
def pyLower (s : String) : String :=
  String.mk (s.data.map Char.toLower)

/-- Python `s.strip()`: drop whitespace from both ends. -/
def pyStrip (s : String) : String :=
  String.mk (((s.data.dropWhile Char.isWhitespace).reverse.dropWhile
    Char.isWhitespace).reverse)

/-- Python `s.startswith(p)`. -/
def pyStartsWith (s p : String) : Bool :=
  p.data.isPrefixOf s.data

/-- Python `s.replace('*', 'all')` at character level. -/
def pyReplaceStar : List Char → List Char
  | [] => []
  | c :: cs =>
    if c = '*' then 'a' :: 'l' :: 'l' :: pyReplaceStar cs
    else c :: pyReplaceStar cs

/-- Python `s.replace(',', '')` at character level. -/
def pyRemoveCommas (l : List Char) : List Char :=
  l.filter (fun c => c ≠ ',')

/-- Python slicing `s[:n]`. -/
def pyTake (n : Nat) (s : String) : String :=
  String.mk (s.data.take n)

/-- Python `'_'.join(ws)`. -/
def underscoreJoin : List String → String
  | [] => ""
  | [w] => w
  | w :: ws => w ++ "_" ++ underscoreJoin ws

/-- Python `list.index(w)`: index of the first occurrence, `none` when the
element is absent (Python raises ValueError there). -/
def firstIdxOf (w : String) : List String → Option Nat
  | [] => none
  | x :: xs => if x = w then some 0 else (firstIdxOf w xs).map (· + 1)

/-- The character filter of `generate_filename` (helpers.py line 85):
keep a character when it is alphanumeric, an underscore or a period. -/
def keepChar (c : Char) : Bool :=
  c.isAlphanum || c = '_' || c = '.'

/-- The sanitisation step of `generate_filename`:
Python `''.join(c for c in filename if c.isalnum() or c in ['_', '.'])`. -/
def sanitizeFilename (s : String) : String :=
  String.mk (s.data.filter keepChar)

/-- The table segment of `generate_filename` (helpers.py lines 71 to 75):
`words.index('from') + 1` indexes the word after the first `from`, which is
stripped to its last dot-segment; a ValueError (no `from`) or IndexError
(`from` is the last word) yields the literal `unknown`.  `pySplitDot` never
returns an empty list, so the Python `[-1]` indexing there cannot fail and
the `getLastD` default is never taken. -/
def tableSegment (words : List String) : String :=
  match firstIdxOf "from" words with
  | none => "unknown"
  | some i =>
    match words[i + 1]? with
    | none => "unknown"
    | some w => (pySplitDot w).getLastD ""

/-- The action segment of `generate_filename` (helpers.py lines 77 to 82):
join the three words after the first `select` with underscores, replace `*`
by `all` and remove commas; a ValueError (no `select`) yields `unknown`.
Python list slicing cannot raise, so only the missing-`select` case falls to
the except branch. -/
def actionSegment (words : List String) : String :=
  match firstIdxOf "select" words with
  | none => "unknown"
  | some i =>
    String.mk (pyRemoveCommas (pyReplaceStar
      (underscoreJoin ((words.drop (i + 1)).take 3)).data))

/-- `generate_filename` (helpers.py lines 58 to 87).  The Python function
reads the current date with `datetime.datetime.now().strftime("%Y%m%d")`;
that clock read is the explicit `currentDate` parameter here. -/
def generate_filename (currentDate query : String) : String :=
  let words := pySplit (pyLower query)
  sanitizeFilename
    (currentDate ++ "_" ++ tableSegment words ++ "_" ++
      pyTake 50 (actionSegment words))

/-- A Python dict with string keys and string values, as an association
list; lookup finds the first binding. -/
abbrev PyDict := List (String × String)

/-- Python `config[key]`: `.ok` the value when the key is bound, `.error`
a KeyError otherwise (the access raises immediately in Python). -/
def dictGet (cfg : PyDict) (key : String) : Except String String :=
  match List.lookup key cfg with
  | some v => Except.ok v
  | none => Except.error ("KeyError: " ++ key)

/-- Result of `load_config` (helpers.py lines 18 to 37): the function either
terminates the whole process through `exit(1)` after printing a message, or
returns the parsed configuration.  It never raises a recoverable error: every
failure branch (missing file, JSONDecodeError, any other Exception) calls
`exit(1)`. -/
inductive LoadResult where
  | exited (code : Nat)
  | loaded (config : PyDict)
deriving DecidableEq

/-- `load_config` (helpers.py lines 18 to 37).  The filesystem read is the
`file` oracle (`none` = `os.path.exists` is false); the JSON parser is the
`parse` oracle (`none` = `json.JSONDecodeError`). -/
def load_config (file : Option String)
    (parse : String → Option PyDict) : LoadResult :=
  match file with
  | none => LoadResult.exited 1
  | some content =>
    match parse content with
    | none => LoadResult.exited 1
    | some cfg => LoadResult.loaded cfg

/-- The configuration access of `create_athena_database_and_table`
(athena_operations.py line 110): `config['athena_output_bucket']` on the
loaded configuration, which raises KeyError at once when the key is absent. -/
def create_athena_database_and_table_config_access
    (cfg : PyDict) : Except String String :=
  dictGet cfg "athena_output_bucket"

/-- Python `os.path.splitext(s).ext` for a plain filename (no directory
separators): the suffix from the last dot on, except that dots leading the
name do not start an extension (`.bashrc` has none). -/
def extOf (s : String) : String :=
  let cs := s.data
  let rest := cs.dropWhile (fun c => c = '.')
  if rest.contains '.' then
    String.mk ('.' :: (rest.reverse.takeWhile (fun c => c ≠ '.')).reverse)
  else ""

/-- The Python standard library table `mimetypes.guess_type`, restricted to
the file extensions this program routes (the table is keyed on the
lower-cased extension; unknown extensions guess nothing). -/
def mimetypesGuess (filename : String) : Option String :=
  let e := extOf (pyLower filename)
  if e = ".png" then some "image/png"
  else if e = ".jpg" then some "image/jpeg"
  else if e = ".jpeg" then some "image/jpeg"
  else if e = ".gif" then some "image/gif"
  else if e = ".bmp" then some "image/bmp"
  else if e = ".svg" then some "image/svg+xml"
  else if e = ".tif" then some "image/tiff"
  else if e = ".tiff" then some "image/tiff"
  else if e = ".csv" then some "text/csv"
  else if e = ".txt" then some "text/plain"
  else if e = ".json" then some "application/json"
  else if e = ".pdf" then some "application/pdf"
  else if e = ".html" then some "text/html"
  else none

/-- `get_default_bucket` (helpers.py lines 90 to 109), parameterised by the
MIME guesser (`mimetypes.guess_type` in the source).  The `elif` branch for
`.csv`/`.txt`/`.json` and the final `else` branch both return the data
bucket, exactly as in the source. -/
def get_default_bucket (guess : String → Option String)
    (filename : String) (cfg : PyDict) : Except String String :=
  let ext := extOf (pyLower filename)
  let mimeIsImage :=
    match guess filename with
    | some m => pyStartsWith m "image/"
    | none => false
  if mimeIsImage then dictGet cfg "images_bucket"
  else if ext = ".csv" ∨ ext = ".txt" ∨ ext = ".json" then
    dictGet cfg "data_bucket"
  else dictGet cfg "data_bucket"

/-- The Athena service as seen by one `run_athena_query` call: the state the
service reports at the i-th poll, the optional `StateChangeReason`, and what
`get_query_results` would yield (`.error` = the service raises a ClientError
on the fetch, `.ok rows` = the paginated rows). -/
structure AthenaService where
  states : Nat → String
  stateChangeReason : Option String
  fetchResult : Except String (List (List String))

/-- The terminal-state test of the polling loop (athena_operations.py line
57): exactly the three strings SUCCEEDED, FAILED, CANCELLED. -/
def isTerminalState (s : String) : Bool :=
  s = "SUCCEEDED" || s = "FAILED" || s = "CANCELLED"

/-- `wait_for_query_to_complete` (athena_operations.py lines 51 to 66),
fuel-indexed: at each iteration poll the service; stop and return the state
when it is terminal, otherwise sleep and poll again.  `none` means the loop
has not terminated within `fuel` polls.  The identical loop appears in
athena_query.py lines 102 to 119. -/
def wait_for_query_to_complete : Nat → (Nat → String) → Option String
  | 0, _ => none
  | Nat.succ fuel, states =>
    if isTerminalState (states 0) then some (states 0)
    else wait_for_query_to_complete fuel (fun n => states (n + 1))

/-- Observable outcome of one `run_athena_query` call that reached a
terminal state: the state the poll ended on, how many `get_query_results`
calls were made, how many `store_query_results` calls were made, the stored
file name if any, the `StateChangeReason` printed by the polling loop if
any, and the ClientError re-raised past the call if any. -/
structure RunOutcome where
  terminalState : String
  fetchCalls : Nat
  storeCalls : Nat
  storedFile : Option String
  printedReason : Option String
  raised : Option String
deriving DecidableEq

/-- `run_athena_query` (athena_operations.py lines 19 to 48).  After the
polling loop returns (it does not raise on FAILED or CANCELLED, it only
prints the state and reason), the runner checks
`query.strip().lower().startswith('select')`; for a SELECT it calls
`get_query_results` once, and only when the returned list is non-empty does
it call `store_query_results` with `generate_filename(query)`; a ClientError
from the fetch is printed and re-raised.  For a non-SELECT neither call is
made.  `none` means the poll never reached a terminal state within `fuel`. -/
def run_athena_query (currentDate query : String) (svc : AthenaService)
    (fuel : Nat) : Option RunOutcome :=
  match wait_for_query_to_complete fuel svc.states with
  | none => none
  | some st =>
    if pyStartsWith (pyLower (pyStrip query)) "select" then
      match svc.fetchResult with
      | Except.error e =>
        some { terminalState := st, fetchCalls := 1, storeCalls := 0,
               storedFile := none, printedReason := svc.stateChangeReason,
               raised := some e }
      | Except.ok rows =>
        if rows.isEmpty then
          some { terminalState := st, fetchCalls := 1, storeCalls := 0,
                 storedFile := none, printedReason := svc.stateChangeReason,
                 raised := none }
        else
          some { terminalState := st, fetchCalls := 1, storeCalls := 1,
                 storedFile := some (generate_filename currentDate query),
                 printedReason := svc.stateChangeReason, raised := none }
    else
      some { terminalState := st, fetchCalls := 0, storeCalls := 0,
             storedFile := none, printedReason := svc.stateChangeReason,
             raised := none }

/-- The S3 existence check `head_bucket`, as the service answers it for a
given set of existing buckets: HTTP 200 when the bucket exists, a
ClientError with code 404 otherwise.  (`create_bucket` also handles any
other error code by re-raising; `headOf` models the well-behaved service of
the idempotence claim.) -/
inductive HeadResp where
  | ok
  | notFound
  | otherError (code : Nat)
deriving DecidableEq

/-- The well-behaved `head_bucket` answer for bucket set `buckets`. -/
def headOf (buckets : List String) (name : String) : HeadResp :=
  if name ∈ buckets then HeadResp.ok else HeadResp.notFound

/-- Observable outcome of one `create_bucket` call: the bucket set after the
call, how many `s3_client.create_bucket` calls were made, and whether the
call re-raised a ClientError. -/
structure CreateOutcome where
  buckets : List String
  createCalls : Nat
  raised : Bool
deriving DecidableEq

/-- `create_bucket` (s3_module/s3_setup.py lines 28 to 47, identically
s3_module/s3_operations.py lines 45 to 73): `head_bucket` succeeding is a
no-op (prints that the bucket exists); a 404 creates the bucket — for region
us-east-1 with the simple call, otherwise with an explicit
LocationConstraint, both adding the bucket; any other error code re-raises.
The `region` parameter only selects the shape of the creation call. -/
def create_bucket (name region : String) (resp : HeadResp)
    (buckets : List String) : CreateOutcome :=
  match region, resp with
  | _, HeadResp.ok => { buckets := buckets, createCalls := 0, raised := false }
  | _, HeadResp.notFound =>
    { buckets := name :: buckets, createCalls := 1, raised := false }
  | _, HeadResp.otherError _ =>
    { buckets := buckets, createCalls := 0, raised := true }

/-- One `create_bucket` call against the well-behaved service whose
`head_bucket` answers according to the current bucket set. -/
def create_bucket_once (name region : String)
    (buckets : List String) : CreateOutcome :=
  create_bucket name region (headOf buckets name) buckets

/-- `delete_bucket` (s3_module/s3_operations.py lines 76 to 94): delete all
object versions then the bucket, returning a success message; a ClientError
anywhere in the try block is caught and a failure message is returned — the
function never raises past its boundary.  The deletion oracle `svc` answers
`.ok` on success and `.error e` with the stringified ClientError otherwise
(a non-existent bucket answers an error). -/
def delete_bucket (svc : String → Except String Unit)
    (name : String) : String :=
  match svc name with
  | Except.ok _ => "Bucket " ++ name ++ " has been deleted."
  | Except.error e => "Error deleting bucket " ++ name ++ ": " ++ e

/-- `delete_multiple_buckets` (s3_module/s3_operations.py lines 97 to 112):
call `delete_bucket` on each name in order, appending each returned message
to the result list. -/
def delete_multiple_buckets (svc : String → Except String Unit)
    (names : List String) : List String :=
  names.map (delete_bucket svc)

/-! ### Helper lemmas -/

/-- Python `list.index` finds nothing exactly on absent elements. -/
lemma firstIdxOf_eq_none_of_not_mem {w : String} :
    ∀ {l : List String}, w ∉ l → firstIdxOf w l = none := by
  intro l
  induction l with
  | nil => intro _; rfl
  | cons x xs ih =>
    intro h
    unfold firstIdxOf
    have hx : ¬(x = w) := fun hx => h (List.mem_cons.mpr (Or.inl hx.symm))
    rw [if_neg hx, ih (fun hm => h (List.mem_cons_of_mem x hm))]
    rfl

/-- Sanitisation distributes over string append. -/
lemma sanitizeFilename_append (a b : String) :
    sanitizeFilename (a ++ b) = sanitizeFilename a ++ sanitizeFilename b := by
  cases a with
  | mk la =>
    cases b with
    | mk lb =>
      show String.mk ((la ++ lb).filter keepChar) =
        String.mk (la.filter keepChar) ++ String.mk (lb.filter keepChar)
      rw [List.filter_append]
      rfl

/-- Sanitisation fixes a string all of whose characters are kept. -/
lemma sanitizeFilename_of_all_kept {s : String}
    (h : ∀ c ∈ s.data, keepChar c = true) : sanitizeFilename s = s := by
  cases s with
  | mk l =>
    show String.mk (l.filter keepChar) = String.mk l
    rw [List.filter_eq_self.mpr h]

/-- A terminated poll saw a terminal state at some index. -/
lemma wait_some_terminal :
    ∀ (fuel : Nat) (states : Nat → String) (st : String),
      wait_for_query_to_complete fuel states = some st →
      ∃ n, isTerminalState (states n) = true := by
  intro fuel
  induction fuel with
  | zero => intro states st h; exact absurd h (by simp [wait_for_query_to_complete])
  | succ m ih =>
    intro states st h
    unfold wait_for_query_to_complete at h
    by_cases h0 : isTerminalState (states 0) = true
    · exact ⟨0, h0⟩
    · rw [if_neg h0] at h
      obtain ⟨n, hn⟩ := ih _ _ h
      exact ⟨n + 1, hn⟩

/-- A terminal state at index `n` makes the poll with `n + 1` fuel stop. -/
lemma wait_of_terminal :
    ∀ (n : Nat) (states : Nat → String),
      isTerminalState (states n) = true →
      ∃ st, wait_for_query_to_complete (n + 1) states = some st := by
  intro n
  induction n with
  | zero =>
    intro states h
    exact ⟨states 0, by simp [wait_for_query_to_complete, h]⟩
  | succ m ih =>
    intro states h
    by_cases h0 : isTerminalState (states 0) = true
    · exact ⟨states 0, by simp [wait_for_query_to_complete, h0]⟩
    · obtain ⟨st, hst⟩ := ih (fun k => states (k + 1)) h
      exact ⟨st, by simp only [wait_for_query_to_complete, if_neg h0]; exact hst⟩

/-- Full case analysis of one `run_athena_query` call that reached a
terminal state, read off the source's branch structure. -/
lemma run_athena_query_inv (d q : String) (svc : AthenaService) (fuel : Nat)
    (o : RunOutcome) (h : run_athena_query d q svc fuel = some o) :
    o.printedReason = svc.stateChangeReason ∧
    (pyStartsWith (pyLower (pyStrip q)) "select" = true →
      o.fetchCalls = 1 ∧
      (∀ e, svc.fetchResult = Except.error e →
        o.storeCalls = 0 ∧ o.storedFile = none ∧ o.raised = some e) ∧
      (∀ rows, svc.fetchResult = Except.ok rows →
        o.storeCalls = (if rows.isEmpty then 0 else 1) ∧
        o.storedFile = (if rows.isEmpty then none
          else some (generate_filename d q)) ∧ o.raised = none)) ∧
    (pyStartsWith (pyLower (pyStrip q)) "select" = false →
      o.fetchCalls = 0 ∧ o.storeCalls = 0 ∧ o.storedFile = none ∧
      o.raised = none) := by
  unfold run_athena_query at h
  split at h
  · exact Option.noConfusion h
  · rename_i st hw
    split at h
    · rename_i hsel
      split at h
      · rename_i e hf
        cases Option.some.inj h
        refine ⟨rfl, fun _ => ⟨rfl, ?_, ?_⟩, fun hns => by simp [hns] at hsel⟩
        · intro e2 he2
          rw [hf] at he2
          cases he2
          exact ⟨rfl, rfl, rfl⟩
        · intro rows hr
          rw [hf] at hr
          cases hr
      · rename_i rows hf
        split at h
        · rename_i he
          cases Option.some.inj h
          refine ⟨rfl, fun _ => ⟨rfl, ?_, ?_⟩, fun hns => by simp [hns] at hsel⟩
          · intro e2 he2
            rw [hf] at he2
            cases he2
          · intro rows2 hr
            rw [hf] at hr
            cases hr
            exact ⟨by simp [he], by simp [he], rfl⟩
        · rename_i he
          cases Option.some.inj h
          refine ⟨rfl, fun _ => ⟨rfl, ?_, ?_⟩, fun hns => by simp [hns] at hsel⟩
          · intro e2 he2
            rw [hf] at he2
            cases he2
          · intro rows2 hr
            rw [hf] at hr
            cases hr
            exact ⟨by simp [he], by simp [he], rfl⟩
    · rename_i hsel
      cases Option.some.inj h
      exact ⟨rfl, fun hs => absurd hs hsel, fun _ => ⟨rfl, rfl, rfl, rfl⟩⟩

/-! ### Claim theorems -/

/-- C4: the polling loop `wait_for_query_to_complete` terminates if and only
if some reported state is one of exactly SUCCEEDED, FAILED, CANCELLED; on a
state sequence containing none of them it polls forever (no fuel bound makes
it stop). -/
theorem wait_for_query_to_complete_terminates_iff (states : Nat → String) :
    ((∃ fuel st, wait_for_query_to_complete fuel states = some st) ↔
      (∃ n, isTerminalState (states n) = true)) ∧
    ((∀ n, isTerminalState (states n) = false) →
      ∀ fuel, wait_for_query_to_complete fuel states = none) := by
  constructor
  · constructor
    · rintro ⟨fuel, st, h⟩
      exact wait_some_terminal fuel states st h
    · rintro ⟨n, hn⟩
      obtain ⟨st, hst⟩ := wait_of_terminal n states hn
      exact ⟨n + 1, st, hst⟩
  · intro hall fuel
    cases hw : wait_for_query_to_complete fuel states with
    | none => rfl
    | some st =>
      obtain ⟨n, hn⟩ := wait_some_terminal fuel states st hw
      rw [hall n] at hn
      cases hn

/-- C10: `generate_filename` is total — every input string yields a filename
whose characters are all alphanumeric, underscore or period, and a query
without a `from` (resp. `select`) token gets the literal `unknown` table
(resp. action) segment; the Python exception branches are exactly these
fallbacks. -/
theorem generate_filename_total_sanitized (d q : String) :
    (∀ c ∈ (generate_filename d q).data,
      c.isAlphanum = true ∨ c = '_' ∨ c = '.') ∧
    ("from" ∉ pySplit (pyLower q) →
      tableSegment (pySplit (pyLower q)) = "unknown") ∧
    ("select" ∉ pySplit (pyLower q) →
      actionSegment (pySplit (pyLower q)) = "unknown") := by
  refine ⟨?_, ?_, ?_⟩
  · intro c hc
    have hk : keepChar c = true := by
      simp only [generate_filename, sanitizeFilename] at hc
      exact List.of_mem_filter hc
    simpa [keepChar, Bool.or_eq_true, decide_eq_true_eq, or_assoc] using hk
  · intro h
    unfold tableSegment
    rw [firstIdxOf_eq_none_of_not_mem h]
  · intro h
    unfold actionSegment
    rw [firstIdxOf_eq_none_of_not_mem h]

/-- C10 witness: on the empty query both fallbacks fire and the result is
the sanitized date plus two `unknown` segments. -/
theorem generate_filename_total_sanitized_witness :
    ("from" ∉ pySplit (pyLower "")) ∧
    ("select" ∉ pySplit (pyLower "")) ∧
    tableSegment (pySplit (pyLower "")) = "unknown" ∧
    actionSegment (pySplit (pyLower "")) = "unknown" ∧
    generate_filename "20241013" "" = "20241013_unknown_unknown" := by
  have h := generate_filename_total_sanitized "20241013" ""
  exact ⟨by decide, by decide, h.2.1 (by decide), h.2.2 (by decide), by decide⟩

/-- C3 counterexample: on the spec's own example query the code produces the
action segment from the three words after `select`, which are `patient_id,`,
`name` and `from`, so the filename carries a trailing `_from` that the
claimed value lacks. -/
theorem generate_filename_patient_query_cex :
    generate_filename "20241013"
        "SELECT patient_id, name FROM medical_db.patient_data" =
      "20241013_patient_data_patient_id_name_from" ∧
    generate_filename "20241013"
        "SELECT patient_id, name FROM medical_db.patient_data" ≠
      "20241013_patient_data_patient_id_name" := by
  exact ⟨by decide, by decide⟩

/-- C3 (amended): for a date string of kept characters (as YYYYMMDD dates
are), the derived filename for the example query is
`{D}_patient_data_patient_id_name_from`: the table segment is the token
after `from` stripped to its last dot-segment, and the action segment is the
up-to-three tokens after `select` — here `patient_id,`, `name` and `from` —
with commas removed. -/
theorem generate_filename_patient_query (d : String)
    (hd : ∀ c ∈ d.data, keepChar c = true) :
    generate_filename d
        "SELECT patient_id, name FROM medical_db.patient_data" =
      d ++ "_patient_data_patient_id_name_from" := by
  have ht : tableSegment (pySplit (pyLower
      "SELECT patient_id, name FROM medical_db.patient_data")) =
      "patient_data" := by decide
  have ha : pyTake 50 (actionSegment (pySplit (pyLower
      "SELECT patient_id, name FROM medical_db.patient_data"))) =
      "patient_id_name_from" := by decide
  simp only [generate_filename]
  rw [ht, ha]
  rw [String.append_assoc, String.append_assoc, String.append_assoc]
  have hs : ("_" : String) ++ ("patient_data" ++ ("_" ++
      "patient_id_name_from")) = "_patient_data_patient_id_name_from" := by
    decide
  rw [hs, sanitizeFilename_append, sanitizeFilename_of_all_kept hd,
    sanitizeFilename_of_all_kept (by decide)]

/-- C3 witness: the amended statement at the concrete date 20241013. -/
theorem generate_filename_patient_query_witness :
    (∀ c ∈ ("20241013" : String).data, keepChar c = true) ∧
    generate_filename "20241013"
        "SELECT patient_id, name FROM medical_db.patient_data" =
      "20241013" ++ "_patient_data_patient_id_name_from" :=
  ⟨by decide, generate_filename_patient_query "20241013" (by decide)⟩

/-- A service run where the query succeeds and the fetch returns no rows. -/
def svcSucceededEmpty : AthenaService :=
  { states := fun _ => "SUCCEEDED", stateChangeReason := none,
    fetchResult := Except.ok [] }

/-- A service run where the query succeeds and the fetch returns one row. -/
def svcSucceededRow : AthenaService :=
  { states := fun _ => "SUCCEEDED", stateChangeReason := none,
    fetchResult := Except.ok [["patient_id", "name"]] }

/-- A service run where the query fails with a reason and any fetch attempt
raises a ClientError, as Athena answers for a failed execution. -/
def svcFailed : AthenaService :=
  { states := fun _ => "FAILED", stateChangeReason := some "SYNTAX_ERROR",
    fetchResult := Except.error "InvalidRequestException" }

/-- The outcome of running a one-row SELECT against `svcSucceededRow`. -/
def runRowOutcome : RunOutcome :=
  { terminalState := "SUCCEEDED", fetchCalls := 1, storeCalls := 1,
    storedFile := some (generate_filename "20241013" "SELECT x FROM t"),
    printedReason := none, raised := none }

/-- The outcome of running a non-SELECT statement against `svcFailed`. -/
def runFailedDropOutcome : RunOutcome :=
  { terminalState := "FAILED", fetchCalls := 0, storeCalls := 0,
    storedFile := none, printedReason := some "SYNTAX_ERROR", raised := none }

/-- The outcome of running a SELECT against `svcSucceededEmpty`. -/
def runEmptyOutcome : RunOutcome :=
  { terminalState := "SUCCEEDED", fetchCalls := 1, storeCalls := 0,
    storedFile := none, printedReason := none, raised := none }

/-- The outcome of running a SELECT statement against `svcFailed`. -/
def runFailedSelectOutcome : RunOutcome :=
  { terminalState := "FAILED", fetchCalls := 1, storeCalls := 0,
    storedFile := none, printedReason := some "SYNTAX_ERROR",
    raised := some "InvalidRequestException" }

/-- C1 counterexample: a SELECT statement reaching the successful terminal
state with an empty fetched result set makes exactly one fetch call but zero
store calls, so it is false that exactly one result-fetch-and-store call
(one fetch and one store) occurs on every successful SELECT. -/
theorem run_athena_query_empty_results_cex :
    run_athena_query "20241013" "SELECT x FROM t" svcSucceededEmpty 1 =
      some runEmptyOutcome ∧
    runEmptyOutcome.terminalState = "SUCCEEDED" ∧
    runEmptyOutcome.fetchCalls = 1 ∧
    ¬ (∀ o, run_athena_query "20241013" "SELECT x FROM t" svcSucceededEmpty 1 =
        some o → o.storeCalls = 1) := by
  refine ⟨by decide, rfl, rfl, fun hall => ?_⟩
  exact absurd (hall runEmptyOutcome (by decide)) (by decide)

/-- C1 (amended): for a statement beginning with `select` after stripping
and lowering, a run reaching the successful terminal state makes exactly one
result-fetch call, and exactly one store call when the fetch returns data,
zero store calls when it returns none; for any other statement zero fetch
and zero store calls occur regardless of terminal state. -/
theorem run_athena_query_select_fetch_store (d q : String)
    (svc : AthenaService) (fuel : Nat) (o : RunOutcome)
    (h : run_athena_query d q svc fuel = some o) :
    (pyStartsWith (pyLower (pyStrip q)) "select" = true →
      o.terminalState = "SUCCEEDED" →
      o.fetchCalls = 1 ∧
      (∀ rows, svc.fetchResult = Except.ok rows →
        o.storeCalls = (if rows.isEmpty then 0 else 1))) ∧
    (pyStartsWith (pyLower (pyStrip q)) "select" = false →
      o.fetchCalls = 0 ∧ o.storeCalls = 0) := by
  have hi := run_athena_query_inv d q svc fuel o h
  refine ⟨fun hs _ => ⟨(hi.2.1 hs).1, fun rows hr =>
    ((hi.2.1 hs).2.2 rows hr).1⟩, fun hns => ?_⟩
  exact ⟨(hi.2.2 hns).1, (hi.2.2 hns).2.1⟩

/-- C1 witness: the amended statement at a successful one-row SELECT run,
where one fetch and one store occur. -/
theorem run_athena_query_select_fetch_store_witness :
    run_athena_query "20241013" "SELECT x FROM t" svcSucceededRow 1 =
      some runRowOutcome ∧
    runRowOutcome.fetchCalls = 1 ∧ runRowOutcome.storeCalls = 1 := by
  have h : run_athena_query "20241013" "SELECT x FROM t" svcSucceededRow 1 =
      some runRowOutcome := by decide
  have hc := (run_athena_query_select_fetch_store "20241013" "SELECT x FROM t"
    svcSucceededRow 1 runRowOutcome h).1 (by decide) rfl
  exact ⟨h, hc.1, (hc.2 [["patient_id", "name"]] rfl).trans (by decide)⟩

/-- C2 counterexample: a SELECT statement whose polled terminal state is
FAILED still triggers a result-fetch attempt (the polling loop prints the
state and reason and returns normally, and the runner only checks whether
the statement is a SELECT), so it is false that no result fetch is attempted
on failure. -/
theorem run_athena_query_failed_select_fetch_cex :
    run_athena_query "20241013" "SELECT x FROM t" svcFailed 1 =
      some runFailedSelectOutcome ∧
    runFailedSelectOutcome.fetchCalls = 1 ∧
    ¬ (∀ o, run_athena_query "20241013" "SELECT x FROM t" svcFailed 1 =
        some o → o.fetchCalls = 0) := by
  refine ⟨by decide, rfl, fun hall => ?_⟩
  exact absurd (hall runFailedSelectOutcome (by decide)) (by decide)

/-- C2 (amended): on a failure terminal state (FAILED or CANCELLED) the
polling loop stops and the service-reported failure reason is printed to the
caller's console; a result fetch is attempted exactly when the statement is
a SELECT (whose service error is then re-raised), and never for any other
statement. -/
theorem run_athena_query_failure_reason_and_fetch (d q : String)
    (svc : AthenaService) (fuel : Nat) (o : RunOutcome)
    (h : run_athena_query d q svc fuel = some o)
    (hs : o.terminalState = "FAILED" ∨ o.terminalState = "CANCELLED") :
    o.printedReason = svc.stateChangeReason ∧
    o.fetchCalls =
      (if pyStartsWith (pyLower (pyStrip q)) "select" then 1 else 0) ∧
    (∀ e, pyStartsWith (pyLower (pyStrip q)) "select" = true →
      svc.fetchResult = Except.error e → o.raised = some e) := by
  have hi := run_athena_query_inv d q svc fuel o h
  refine ⟨hi.1, ?_, fun e hsel hf => ((hi.2.1 hsel).2.1 e hf).2.2⟩
  cases hb : pyStartsWith (pyLower (pyStrip q)) "select" with
  | true => simp only [hb, if_pos]; exact (hi.2.1 hb).1
  | false => simp only [hb, Bool.false_eq_true, if_false]; exact (hi.2.2 hb).1

/-- C2 witness: the amended statement at a failed non-SELECT run, where the
reason is printed and no fetch occurs. -/
theorem run_athena_query_failure_reason_and_fetch_witness :
    run_athena_query "20241013" "DROP TABLE t" svcFailed 1 =
      some runFailedDropOutcome ∧
    runFailedDropOutcome.printedReason = svcFailed.stateChangeReason ∧
    runFailedDropOutcome.fetchCalls = 0 := by
  have h : run_athena_query "20241013" "DROP TABLE t" svcFailed 1 =
      some runFailedDropOutcome := by decide
  have hc := run_athena_query_failure_reason_and_fetch "20241013"
    "DROP TABLE t" svcFailed 1 runFailedDropOutcome h (Or.inl rfl)
  exact ⟨h, hc.1, hc.2.1.trans (by decide)⟩

/-- C9: for a SELECT statement reaching the successful terminal state whose
fetched result list is empty, the runner makes the fetch call but zero store
calls and writes no result file; a store call happens exactly when the
fetched list is non-empty. -/
theorem run_athena_query_store_only_nonempty (d q : String)
    (svc : AthenaService) (fuel : Nat) (o : RunOutcome)
    (rows : List (List String))
    (h : run_athena_query d q svc fuel = some o)
    (hsel : pyStartsWith (pyLower (pyStrip q)) "select" = true)
    (hsucc : o.terminalState = "SUCCEEDED")
    (hrows : svc.fetchResult = Except.ok rows) :
    o.fetchCalls = 1 ∧
    o.storeCalls = (if rows.isEmpty then 0 else 1) ∧
    (rows.isEmpty = true → o.storedFile = none) ∧
    (rows.isEmpty = false → o.storedFile = some (generate_filename d q)) := by
  have hi := (run_athena_query_inv d q svc fuel o h).2.1 hsel
  refine ⟨hi.1, (hi.2.2 rows hrows).1, fun he => ?_, fun he => ?_⟩
  · rw [(hi.2.2 rows hrows).2.1, if_pos he]
  · rw [(hi.2.2 rows hrows).2.1, if_neg (by simp [he])]

/-- C9 witness: a successful SELECT whose fetch returns the empty list makes
one fetch call, zero store calls and stores no file. -/
theorem run_athena_query_store_only_nonempty_witness :
    run_athena_query "20241013" "SELECT x FROM t" svcSucceededEmpty 1 =
      some runEmptyOutcome ∧
    runEmptyOutcome.fetchCalls = 1 ∧
    runEmptyOutcome.storeCalls = 0 ∧
    runEmptyOutcome.storedFile = none := by
  have h : run_athena_query "20241013" "SELECT x FROM t" svcSucceededEmpty 1 =
      some runEmptyOutcome := by decide
  have hc := run_athena_query_store_only_nonempty "20241013" "SELECT x FROM t"
    svcSucceededEmpty 1 runEmptyOutcome [] h (by decide) rfl rfl
  exact ⟨h, hc.1, hc.2.1.trans (by decide), hc.2.2.1 rfl⟩

/-- C5: `create_bucket` is idempotent against a well-behaved service — a
second invocation with the same name and region finds the bucket via
`head_bucket` (existence check succeeds), performs no creation call, raises
nothing, leaves the bucket set unchanged, and exactly one bucket with that
name exists. -/
theorem create_bucket_idempotent (name region : String)
    (s0 : List String) (h : s0.Nodup) :
    (create_bucket_once name region
        (create_bucket_once name region s0).buckets).buckets =
      (create_bucket_once name region s0).buckets ∧
    (create_bucket_once name region
        (create_bucket_once name region s0).buckets).createCalls = 0 ∧
    (create_bucket_once name region
        (create_bucket_once name region s0).buckets).raised = false ∧
    (create_bucket_once name region s0).buckets.count name = 1 := by
  by_cases hm : name ∈ s0
  · have h1 : create_bucket_once name region s0 =
        { buckets := s0, createCalls := 0, raised := false } := by
      simp [create_bucket_once, headOf, hm, create_bucket]
    rw [h1]
    have h2 : create_bucket_once name region s0 =
        { buckets := s0, createCalls := 0, raised := false } := h1
    simp [create_bucket_once, headOf, hm, create_bucket, h1]
    exact List.count_eq_one_of_mem h hm
  · have h1 : create_bucket_once name region s0 =
        { buckets := name :: s0, createCalls := 1, raised := false } := by
      simp [create_bucket_once, headOf, hm, create_bucket]
    rw [h1]
    have hmem : name ∈ name :: s0 := List.mem_cons_self name s0
    simp [create_bucket_once, headOf, hmem, create_bucket, h1,
      List.count_cons_self, List.count_eq_zero_of_not_mem hm]

/-- C5 witness: starting from no buckets, the first call creates the bucket
and the second is a no-op leaving exactly one bucket named b. -/
theorem create_bucket_idempotent_witness :
    ([] : List String).Nodup ∧
    ((create_bucket_once "b" "us-east-1"
        (create_bucket_once "b" "us-east-1" []).buckets).buckets =
      (create_bucket_once "b" "us-east-1" []).buckets ∧
    (create_bucket_once "b" "us-east-1"
        (create_bucket_once "b" "us-east-1" []).buckets).createCalls = 0 ∧
    (create_bucket_once "b" "us-east-1"
        (create_bucket_once "b" "us-east-1" []).buckets).raised = false ∧
    (create_bucket_once "b" "us-east-1" []).buckets.count "b" = 1) :=
  ⟨List.nodup_nil, create_bucket_idempotent "b" "us-east-1" [] List.nodup_nil⟩

/-- C6: when the service reports an error for a bucket (as it does for a
non-existent one), `delete_bucket` returns a descriptive failure message
string — the function is total and never raises past its boundary — and
`delete_multiple_buckets` returns exactly one outcome message per requested
name, in input order. -/
theorem delete_bucket_message_and_batch_order
    (svc : String → Except String Unit) (name e : String)
    (h : svc name = Except.error e) :
    delete_bucket svc name = "Error deleting bucket " ++ name ++ ": " ++ e ∧
    (∀ names : List String,
      (delete_multiple_buckets svc names).length = names.length ∧
      ∀ i : Nat, (delete_multiple_buckets svc names)[i]? =
        (names[i]?).map (delete_bucket svc)) := by
  refine ⟨?_, fun names => ⟨?_, fun i => ?_⟩⟩
  · unfold delete_bucket
    rw [h]
  · simp [delete_multiple_buckets]
  · simp [delete_multiple_buckets]

/-- C6 witness: a deletion oracle that errors on every bucket (no bucket
exists) yields one failure message per name, in order. -/
theorem delete_bucket_message_and_batch_order_witness :
    (fun (_ : String) => (Except.error "NoSuchBucket" : Except String Unit))
        "b1" = Except.error "NoSuchBucket" ∧
    delete_bucket
        (fun _ => (Except.error "NoSuchBucket" : Except String Unit)) "b1" =
      "Error deleting bucket b1: NoSuchBucket" ∧
    delete_multiple_buckets
        (fun _ => (Except.error "NoSuchBucket" : Except String Unit))
        ["b1", "b2"] =
      ["Error deleting bucket b1: NoSuchBucket",
       "Error deleting bucket b2: NoSuchBucket"] := by
  have hc := delete_bucket_message_and_batch_order
    (fun _ => (Except.error "NoSuchBucket" : Except String Unit))
    "b1" "NoSuchBucket" rfl
  exact ⟨rfl, hc.1.trans (by decide), by decide⟩

/-- The configuration the C7 witness routes against. -/
def cfgBuckets : PyDict :=
  [("images_bucket", "imgs"), ("data_bucket", "data")]

/-- C7: with the standard-library MIME table, a filename guessed as an
image MIME type routes to the configured images bucket; a filename with
extension .csv, .txt or .json routes to the configured data bucket; and a
filename with no image MIME guess (unrecognized extensions included) also
routes to the data bucket. -/
theorem get_default_bucket_routing (filename : String) (cfg : PyDict)
    (imgB dataB : String)
    (h1 : dictGet cfg "images_bucket" = Except.ok imgB)
    (h2 : dictGet cfg "data_bucket" = Except.ok dataB) :
    ((∃ m, mimetypesGuess filename = some m ∧
        pyStartsWith m "image/" = true) →
      get_default_bucket mimetypesGuess filename cfg = Except.ok imgB) ∧
    (extOf (pyLower filename) = ".csv" ∨ extOf (pyLower filename) = ".txt" ∨
        extOf (pyLower filename) = ".json" →
      get_default_bucket mimetypesGuess filename cfg = Except.ok dataB) ∧
    ((∀ m, mimetypesGuess filename = some m →
        pyStartsWith m "image/" = false) →
      get_default_bucket mimetypesGuess filename cfg = Except.ok dataB) := by
  refine ⟨?_, ?_, ?_⟩
  · rintro ⟨m, hm, hi⟩
    simp only [get_default_bucket, hm, hi, if_pos]
    exact h1
  · intro hext
    have hni : (match mimetypesGuess filename with
        | some m => pyStartsWith m "image/"
        | none => false) = false := by
      rcases hext with h | h | h <;> simp [mimetypesGuess, h] <;> decide
    simp only [get_default_bucket, hni, Bool.false_eq_true, if_false,
      ite_self]
    exact h2
  · intro hall
    have hni : (match mimetypesGuess filename with
        | some m => pyStartsWith m "image/"
        | none => false) = false := by
      cases hg : mimetypesGuess filename with
      | none => rfl
      | some m => exact hall m hg
    simp only [get_default_bucket, hni, Bool.false_eq_true, if_false,
      ite_self]
    exact h2

/-- C7 witness: a .png filename routes to the images bucket and a .csv
filename routes to the data bucket of a concrete configuration. -/
theorem get_default_bucket_routing_witness :
    dictGet cfgBuckets "images_bucket" = Except.ok "imgs" ∧
    dictGet cfgBuckets "data_bucket" = Except.ok "data" ∧
    get_default_bucket mimetypesGuess "scan.png" cfgBuckets =
      Except.ok "imgs" ∧
    get_default_bucket mimetypesGuess "report.csv" cfgBuckets =
      Except.ok "data" := by
  refine ⟨rfl, rfl, ?_, ?_⟩
  · exact (get_default_bucket_routing "scan.png" cfgBuckets "imgs" "data"
      rfl rfl).1 ⟨"image/png", by decide, by decide⟩
  · exact (get_default_bucket_routing "report.csv" cfgBuckets "imgs" "data"
      rfl rfl).2.1 (Or.inl (by decide))

/-- C8: a missing configuration file or malformed JSON makes `load_config`
terminate the process with exit code 1 (never a recoverable error), and any
reader that accesses a missing key — such as
`config['athena_output_bucket']` in `create_athena_database_and_table` —
fails immediately at that access with a KeyError. -/
theorem load_config_missing_or_malformed_exits
    (parse : String → Option PyDict) (content : String)
    (hbad : parse content = none) :
    load_config none parse = LoadResult.exited 1 ∧
    load_config (some content) parse = LoadResult.exited 1 ∧
    (∀ cfg : PyDict, List.lookup "athena_output_bucket" cfg = none →
      create_athena_database_and_table_config_access cfg =
        Except.error ("KeyError: " ++ "athena_output_bucket")) ∧
    (∀ (cfg : PyDict) (key : String), List.lookup key cfg = none →
      dictGet cfg key = Except.error ("KeyError: " ++ key)) := by
  refine ⟨rfl, ?_, ?_, ?_⟩
  · simp only [load_config, hbad]
  · intro cfg hk
    unfold create_athena_database_and_table_config_access dictGet
    rw [hk]
  · intro cfg key hk
    unfold dictGet
    rw [hk]

/-- C8 witness: a parser that rejects everything makes both failure modes
exit with code 1, and the empty configuration fails the output-bucket access
at once. -/
theorem load_config_missing_or_malformed_exits_witness :
    (fun (_ : String) => (none : Option PyDict)) "not json" = none ∧
    load_config none (fun _ => (none : Option PyDict)) =
      LoadResult.exited 1 ∧
    load_config (some "not json") (fun _ => (none : Option PyDict)) =
      LoadResult.exited 1 ∧
    create_athena_database_and_table_config_access [] =
      Except.error "KeyError: athena_output_bucket" := by
  have h := load_config_missing_or_malformed_exits
    (fun _ => (none : Option PyDict)) "not json" rfl
  exact ⟨rfl, h.1, h.2.1, h.2.2.1 [] rfl⟩

end S3Athena
